import Mathlib

/-!
# Verification of the AuraOps deployment orchestrator core

Shallow embedding of the orchestration engine of the `auraops` repository
(`backend/app/services/`): compose orchestration (`compose_service.py`),
the static build pipeline (`build_service.py`), certificate lifecycle
(`ssl_service.py`), managed-service templates (`service_templates.py`),
the proxy reload protocol (`nginx_service.py`) and the deployment
dispatcher (`docker_service.py`).

External effects (the container runtime, subprocesses, the filesystem and
the ACME tool) are modelled by explicit "world" records supplying the
outcome of each external call; Python exceptions are modelled with
`Except String`, Python dicts with insertion-ordered association lists,
and wall-clock time with a `Nat` counted in days.
-/

set_option autoImplicit false

namespace AuraOps

/-- A Python dict from strings to strings, as an insertion-ordered
association list (first binding of a key is the authoritative one). -/
abbrev EnvMap := List (String × String)

/-- Lookup in an `EnvMap`, mirroring `d.get(k)`. -/
def envGet (m : EnvMap) (k : String) : Option String :=
  (m.find? (fun p => p.1 = k)).map Prod.snd

/-- `base.update(overrides)` on Python dicts: values of keys already
present are replaced in place, new keys are appended in order. -/
def dictUpdate (base overrides : EnvMap) : EnvMap :=
  overrides.foldl
    (fun acc kv =>
      if acc.any (fun p => p.1 = kv.1) then
        acc.map (fun p => if p.1 = kv.1 then kv else p)
      else acc ++ [kv])
    base

/-!
Lean's built-in `String.startsWith`, `String.toLower`, `String.replace`
and `String.splitOn` are implemented with byte-position loops that do
not reduce definitionally, so the Python string operations the source
uses are embedded as the equivalent character-list computations below.
-/

/-- `s.startswith(pre)`: prefix test on the character lists. -/
def strStartsWith (s pre : String) : Bool :=
  pre.data.isPrefixOf s.data

/-- `s.lower()`: character-wise lower-casing. -/
def strLower (s : String) : String :=
  ⟨s.data.map Char.toLower⟩

/-- `pat in s` on character lists: some suffix of `s` starts with
`pat`. -/
def charsContain (pat : List Char) : List Char → Bool
  | [] => pat.isPrefixOf []
  | c :: rest => pat.isPrefixOf (c :: rest) || charsContain pat rest

/-- `pat in s` for strings. -/
def strContains (s pat : String) : Bool :=
  charsContain pat.data s.data

/-- Replace every (non-overlapping, leftmost-first) occurrence of `pat`
by `rep`, with fuel bounding the scan; Python `str.replace` semantics
for a non-empty pattern. -/
def replaceChars (pat rep : List Char) : Nat → List Char → List Char
  | 0, s => s
  | _ + 1, [] => []
  | fuel + 1, c :: rest =>
    if pat.isPrefixOf (c :: rest) && !pat.isEmpty then
      rep ++ replaceChars pat rep fuel ((c :: rest).drop pat.length)
    else
      c :: replaceChars pat rep fuel rest

/-- `s.replace(pat, rep)` for a non-empty pattern. -/
def strReplace (s pat rep : String) : String :=
  ⟨replaceChars pat.data rep.data s.data.length s.data⟩

/-- `link.split(":")[0]`: the characters before the first colon. -/
def beforeColon (s : String) : String :=
  ⟨s.data.takeWhile (fun c => c != ':')⟩

/-- Equality of `Except` values is decidable componentwise (used to
evaluate counterexamples and witnesses on concrete worlds). -/
instance {ε α : Type} [DecidableEq ε] [DecidableEq α] : DecidableEq (Except ε α) :=
  fun x y =>
    match x, y with
    | .ok a, .ok b =>
      if h : a = b then isTrue (by rw [h])
      else isFalse (fun hc => h (Except.ok.inj hc))
    | .error a, .error b =>
      if h : a = b then isTrue (by rw [h])
      else isFalse (fun hc => h (Except.error.inj hc))
    | .ok _, .error _ => isFalse (fun hc => Except.noConfusion hc)
    | .error _, .ok _ => isFalse (fun hc => Except.noConfusion hc)

/-- The control-flow-relevant part of one service entry of a parsed
compose manifest (`compose_service.py`): whether an `image` or an inline
`build` context is declared, and the `depends_on` / `links`
declarations. The remaining manifest fields (environment, volumes,
ports, command, restart) are translated purely into launch parameters
whose effect is the runtime's and is supplied by the world. -/
structure ServiceConfig where
  image : Option String
  build : Bool
  depends_on : List String
  links : List String
  deriving Repr, DecidableEq

/-- A parsed compose manifest: the `services` mapping (insertion order
of the YAML document) and the keys of the top-level `volumes` mapping. -/
structure ComposeData where
  services : List (String × ServiceConfig)
  volumes : List String
  deriving Repr, DecidableEq

/-- The fields of `app/models/project.py` that the orchestration core
reads or writes. `env_vars` is `Option` because the column is nullable;
an empty `repo_url` stands for a missing value. The YAML text of
`compose_file` is represented by the outcome of
`ComposeService.parse_compose_file` on it: parsed data, or the
`ValueError` message for text that is invalid YAML or lacks the
`services` key. -/
structure Project where
  id : Nat
  name : String
  deployment_type : String
  repo_url : String
  branch : String
  compose_file : Except String ComposeData
  install_command : Option String
  build_command : Option String
  static_dir : Option String
  port : Nat
  env_vars : Option EnvMap
  status : String
  build_logs : String
  deriving Repr, DecidableEq

/-- The TLS-relevant fields of `app/models/domain.py`. Timestamps are in
days since an arbitrary epoch. -/
structure Domain where
  domain : String
  ssl_enabled : Bool
  ssl_issued_at : Option Nat
  ssl_expires_at : Option Nat
  deriving Repr, DecidableEq

end AuraOps

namespace AuraOps.ComposeService

/-!
## `ComposeService.topological_sort` (`compose_service.py`, lines 72-106)

The dependency map is an insertion-ordered association list mirroring the
Python dict. Python iterates `all_services` as a set, whose enumeration
order is unspecified; the embedding uses first-insertion order (keys and
dependency targets in the order encountered). The facts proved below are
insensitive to that order because the loop body never decrements any
in-degree (see `C1`). The `while queue:` loop is embedded with a fuel
bound that exceeds any possible number of iterations (each node is
enqueued at most once initially and at most once when its in-degree
reaches zero, so `2 * |all_services| + 1` iterations always suffice).
-/

/-- Insert a node into the ordered set of seen services. -/
def addService (acc : List String) (x : String) : List String :=
  if acc.contains x then acc else acc ++ [x]

/-- `all_services = set(dependencies.keys()) ∪ set of all targets`. -/
def allServicesOf (dependencies : List (String × List String)) : List String :=
  dependencies.foldl (fun acc kv => kv.2.foldl addService (addService acc kv.1)) []

/-- `in_degree[dep] += 1` for one target. -/
def bumpDeg (m : List (String × Int)) (k : String) : List (String × Int) :=
  m.map (fun p => if p.1 = k then (p.1, p.2 + 1) else p)

/-- The initial in-degree table: zero for every service, then one
increment per occurrence of a service as a dependency target. -/
def initInDegree (dependencies : List (String × List String)) : List (String × Int) :=
  dependencies.foldl (fun m kv => kv.2.foldl bumpDeg m)
    ((allServicesOf dependencies).map (fun s => (s, (0 : Int))))

/-- `in_degree[k]` (0 if absent, which never happens on real inputs). -/
def lookupDeg (m : List (String × Int)) (k : String) : Int :=
  ((m.find? (fun p => p.1 = k)).map Prod.snd).getD 0

/-- Overwrite `in_degree[k]`. -/
def setDeg (m : List (String × Int)) (k : String) (v : Int) : List (String × Int) :=
  m.map (fun p => if p.1 = k then (p.1, v) else p)

/-- The body of the `while` loop for one popped `service`: for every
`(s, deps)` with `service in deps`, decrement `in_degree[s]` and enqueue
`s` when it reaches zero. Returns the updated table and queue. -/
def kahnStep (dependencies : List (String × List String)) (service : String)
    (deg : List (String × Int)) (queue : List String) :
    List (String × Int) × List String :=
  dependencies.foldl
    (fun st kv =>
      if kv.2.contains service then
        let d := lookupDeg st.1 kv.1 - 1
        let m := setDeg st.1 kv.1 d
        if d = 0 then (m, st.2 ++ [kv.1]) else (m, st.2)
      else st)
    (deg, queue)

/-- The fuelled `while queue:` loop, accumulating `sorted_services`. -/
def kahnLoop (dependencies : List (String × List String)) :
    Nat → List String → List (String × Int) → List String → List String
  | 0, _, _, sorted => sorted
  | _ + 1, [], _, sorted => sorted
  | fuel + 1, service :: rest, deg, sorted =>
      let st := kahnStep dependencies service deg rest
      kahnLoop dependencies fuel st.2 st.1 (sorted ++ [service])

/-- `ComposeService.topological_sort`: Kahn queue drain as written in the
source, failing with the circular-dependency `ValueError` when the drain
covers fewer nodes than `all_services`. -/
def topological_sort (dependencies : List (String × List String)) :
    Except String (List String) :=
  let all := allServicesOf dependencies
  let deg := initInDegree dependencies
  let queue := all.filter (fun s => lookupDeg deg s = 0)
  let sorted := kahnLoop dependencies (2 * all.length + 1) queue deg []
  if sorted.length ≠ all.length then
    .error "Circular dependency detected in docker-compose.yml"
  else
    .ok sorted

/-!
## `ComposeService.deploy_compose_project` (`compose_service.py`, lines 108-289)

Parse the manifest, create the project network (treating
"already exists" as success), create named volumes (collecting only the
newly created ones), compute the deploy order, then deploy the services
in order. Any exception that escapes a step lands in the outer handler
and yields the failed dict; failures of `containers.run` for one service
are caught per service and the loop continues.
-/

/-- `ComposeService.get_service_dependencies`: `depends_on` entries plus
the service-name part of each `links` entry (`service:alias`). -/
def get_service_dependencies (services : List (String × ServiceConfig)) :
    List (String × List String) :=
  services.map (fun kv =>
    (kv.1, kv.2.depends_on ++ kv.2.links.map (fun l => beforeColon l)))

/-- Outcome of one idempotent create call (`networks.create` or
`volumes.create`): created, refused with an "already exists" `APIError`,
or some other exception (re-raised by the source). -/
inductive CreateOutcome where
  | created
  | alreadyExists
  | failure (e : String)
  deriving Repr, DecidableEq

/-- Outcomes of the external calls of one `deploy_compose_project` run,
keyed by full volume name respectively by service name. `old_remove` is
the `get`/`stop`/`remove` of a pre-existing same-named container:
`.ok ()` covers both "absent" (`NotFound` is passed over) and "present
and removed"; `.error` is any other exception, which the source does not
catch inside the loop. `run` is `containers.run`, whose exception is
caught per service. -/
structure ComposeWorld where
  network_create : CreateOutcome
  volume_create : String → CreateOutcome
  old_remove : String → Except String Unit
  run : String → Except String String

/-- The volume-creation loop: newly created full names are collected,
"already exists" is skipped silently, any other error is re-raised. -/
def createVolumes (w : ComposeWorld) (pid : Nat) : List String → Except String (List String)
  | [] => .ok []
  | v :: rest =>
    let full := "auraops-" ++ toString pid ++ "-" ++ v
    match w.volume_create full with
    | .created => (createVolumes w pid rest).map (fun l => full :: l)
    | .alreadyExists => createVolumes w pid rest
    | .failure e => .error e

/-- The per-service deployment loop over the computed order. A name not
declared in `services`, a service with an inline build context, and a
service with neither image nor build are skipped; an exception while
removing a pre-existing container is not caught and aborts the whole
run; a `containers.run` failure is logged and the loop continues. The
deployed container names are accumulated in order. -/
def deployLoop (w : ComposeWorld) (pid : Nat) (services : List (String × ServiceConfig)) :
    List String → List String → Except String (List String)
  | [], deployed => .ok deployed
  | name :: rest, deployed =>
    match services.find? (fun kv => kv.1 = name) with
    | none => deployLoop w pid services rest deployed
    | some kv =>
      let container_name := "auraops-" ++ toString pid ++ "-" ++ name
      match kv.2.image with
      | none => deployLoop w pid services rest deployed
      | some _ =>
        match w.old_remove name with
        | .error e => .error e
        | .ok _ =>
          match w.run name with
          | .ok _ => deployLoop w pid services rest (deployed ++ [container_name])
          | .error _ => deployLoop w pid services rest deployed

/-- The dict returned by `deploy_compose_project` (the failed shape
carries only `status` and `message`; the other fields read as empty). -/
structure ComposeResult where
  status : String
  deployed_services : List String
  network : String
  volumes : List String
  message : String
  deriving Repr, DecidableEq

/-- The `try` body of `deploy_compose_project`. -/
def composeBody (w : ComposeWorld) (p : Project) : Except String ComposeResult :=
  match p.compose_file with
  | .error e => .error e
  | .ok data =>
    let network_name := "auraops-" ++ toString p.id ++ "-network"
    match w.network_create with
    | .failure e => .error e
    | _ =>
      match createVolumes w p.id data.volumes with
      | .error e => .error e
      | .ok created_volumes =>
        let dependencies := get_service_dependencies data.services
        match topological_sort dependencies with
        | .error e => .error e
        | .ok deploy_order =>
          match deployLoop w p.id data.services deploy_order [] with
          | .error e => .error e
          | .ok deployed =>
            .ok { status := "success"
                  deployed_services := deployed
                  network := network_name
                  volumes := created_volumes
                  message := "Deployed " ++ toString deployed.length ++
                    " services successfully" }

/-- Specification-side characterization of the containers a loop over
`order` successfully starts: those of services that are declared, carry
an image, and whose `containers.run` call succeeds in the world. Used to
state that the whole-stack result reports exactly the started
containers. -/
def successfullyStarted (w : ComposeWorld) (pid : Nat)
    (services : List (String × ServiceConfig)) (order : List String) : List String :=
  order.filterMap (fun name =>
    match services.find? (fun kv => kv.1 = name) with
    | none => none
    | some kv =>
      match kv.2.image with
      | none => none
      | some _ =>
        match w.run name with
        | .ok _ => some ("auraops-" ++ toString pid ++ "-" ++ name)
        | .error _ => none)

/-- `ComposeService.deploy_compose_project`: the `try` body, with every
escaping exception converted to the failed dict by the outer handler.
The project record is never mutated. -/
def deploy_compose_project (w : ComposeWorld) (p : Project) : ComposeResult × Project :=
  match composeBody w p with
  | .ok r => (r, p)
  | .error e =>
    ({ status := "failed", deployed_services := [], network := "", volumes := []
       message := e }, p)

end AuraOps.ComposeService

namespace AuraOps.BuildService

/-!
## `BuildService.build_static_site` (`build_service.py`, lines 56-205)

The pipeline drives an ephemeral build container. Each external call is
an entry of `BuildWorld`:

* `create` — `client.containers.run(...)`, yielding the short id or an
  exception;
* `clone` — `container.exec_run` of the git-clone command, yielding
  `(exit_code, output)` or an exception; this is the only step whose
  exit code the source inspects;
* `install`, `build` — `container.exec_run(..., stream=True)`: the
  source iterates the streamed lines and never observes the command
  exit status, so only `lines` is read from the `ExecStream` (the
  `exit_code` field records what the command actually did in the world);
* `copy_exit` — the return value of `os.system(docker cp ...)`, which
  the source ignores;
* `teardown` — `container.stop(); container.remove()` on the success
  path (an exception there falls into the generic handler);
* `nginx_write_ok` — `NginxService.write_config`, which catches its own
  exceptions and returns a bool that the source ignores.
-/

/-- Streamed output of `exec_run(..., stream=True)`: the produced lines
(already decoded and stripped) plus the exit status of the command,
which streaming makes invisible to the caller. -/
structure ExecStream where
  lines : List String
  exit_code : Int
  deriving Repr, DecidableEq

/-- Outcomes of the external calls made by one `build_static_site` run. -/
structure BuildWorld where
  create : Except String String
  clone : Except String (Int × String)
  install : Except String ExecStream
  build : Except String ExecStream
  copy_exit : Int
  teardown : Except String Unit
  nginx_write_ok : Bool
  deriving Repr

/-- The dict returned by `build_static_site` (`output_dir` is present
only on the success shape). -/
structure BuildResult where
  status : String
  message : String
  output_dir : Option String
  logs : List String
  deriving Repr, DecidableEq

/-- A run's result together with the mutated project record and whether
container teardown was attempted. -/
structure BuildOutcome where
  result : BuildResult
  project : Project
  cleanup_attempted : Bool
  deriving Repr, DecidableEq

/-- `"\n".join(build_logs)`. -/
def joinLines (logs : List String) : String :=
  String.intercalate "\n" logs

/-- The `except Exception` branch of `build_static_site`: append the
final `[ERROR]` entry, persist the log text, mark the project failed,
attempt best-effort container cleanup, and return the failed dict. -/
def buildFail (p : Project) (logs : List String) (e : String) : BuildOutcome :=
  let logs := logs ++ ["[ERROR] Build failed: " ++ e]
  { result := { status := "failed", message := e, output_dir := none, logs := logs }
    project := { p with build_logs := joinLines logs, status := "failed" }
    cleanup_attempted := true }

/-- `BuildService.build_static_site`, step for step: set
`status = building`, create the container, clone (aborting on a nonzero
exit), stream install output, stream build output, copy the output
directory (exit status ignored), tear the container down, regenerate the
proxy config (returned bool ignored), then persist logs and set
`status = running`. Any modelled exception jumps to `buildFail`. -/
def build_static_site (w : BuildWorld) (p : Project) : BuildOutcome :=
  let p := { p with status := "building" }
  let logs := ["[INFO] Starting build for " ++ p.name,
               "[INFO] Creating build container..."]
  match w.create with
  | .error e => buildFail p logs e
  | .ok short_id =>
    let logs := logs ++ ["[INFO] Build container created: " ++ short_id,
                         "[INFO] Cloning repository: " ++ p.repo_url]
    match w.clone with
    | .error e => buildFail p logs e
    | .ok (code, output) =>
      if code ≠ 0 then
        buildFail p (logs ++ ["[ERROR] Git clone failed: " ++ output])
          ("Git clone failed: " ++ output)
      else
        let logs := logs ++ ["[SUCCESS] Repository cloned"]
        let install_cmd := p.install_command.getD "npm install"
        let logs := logs ++ ["[INFO] Installing dependencies: " ++ install_cmd]
        match w.install with
        | .error e => buildFail p logs e
        | .ok inst =>
          let logs := logs ++ inst.lines.filter (fun l => l ≠ "")
          let logs := logs ++ ["[SUCCESS] Dependencies installed"]
          let build_cmd := p.build_command.getD "npm run build"
          let logs := logs ++ ["[INFO] Running build: " ++ build_cmd]
          match w.build with
          | .error e => buildFail p logs e
          | .ok bld =>
            let logs := logs ++ bld.lines.filter (fun l => l ≠ "")
            let logs := logs ++ ["[SUCCESS] Build completed",
                                 "[INFO] Copying built files to Nginx volume..."]
            let destination := "/var/www/project-" ++ toString p.id
            let logs := logs ++ ["[SUCCESS] Files copied to " ++ destination,
                                 "[INFO] Cleaning up build container..."]
            match w.teardown with
            | .error e => buildFail p logs e
            | .ok _ =>
              let logs := logs ++ ["[SUCCESS] Build container removed",
                                   "[INFO] Generating Nginx configuration...",
                                   "[SUCCESS] Nginx configured"]
              { result := { status := "success"
                            message := "Build completed successfully"
                            output_dir := some destination
                            logs := logs }
                project := { p with build_logs := joinLines logs, status := "running" }
                cleanup_attempted := true }

end AuraOps.BuildService

namespace AuraOps.SSLService

/-!
## `SSLService` (`ssl_service.py`)

`datetime.utcnow()` is modelled as `now : Nat` in days (the source takes
two `utcnow()` readings microseconds apart when stamping `issued_at` and
`expires_at`; at day granularity they coincide). `timedelta(days=90)`
and `timedelta(days=30)` become `+ 90` and `+ 30`. A `subprocess.run`
of certbot yields `.ok returncode`, or `.error` when the call itself
raises; `db_session.commit()` is the caller-owned persistence step and
is modelled as non-failing.
-/

/-- Outcomes of the certbot invocations available to one sweep. The
renew outcome is keyed by the certificate name (the domain's hostname)
so distinct domains can fail independently. -/
structure CertWorld where
  now : Nat
  certbot_issue : Except String Int
  certbot_renew : String → Except String Int

/-- `SSLService.issue_certificate`: wildcard hostnames are rejected
before any external call; otherwise certbot certonly runs and only a
zero exit mutates the domain (`ssl_enabled`, `ssl_issued_at`,
`ssl_expires_at = now + 90` days). -/
def issue_certificate (w : CertWorld) (d : Domain) : Bool × Domain :=
  if strStartsWith d.domain "*." then
    (false, d)
  else
    match w.certbot_issue with
    | .error _ => (false, d)
    | .ok rc =>
      if rc = 0 then
        (true, { d with ssl_enabled := true
                        ssl_issued_at := some w.now
                        ssl_expires_at := some (w.now + 90) })
      else (false, d)

/-- `SSLService.renew_certificate`: certbot renew by cert name; a zero
exit refreshes `ssl_expires_at` by the fixed 90-day window, anything
else (including an exception) leaves the domain unchanged. -/
def renew_certificate (w : CertWorld) (d : Domain) : Bool × Domain :=
  match w.certbot_renew d.domain with
  | .error _ => (false, d)
  | .ok rc =>
    if rc = 0 then
      (true, { d with ssl_expires_at := some (w.now + 90) })
    else (false, d)

/-- The SQL filter of the sweep:
`ssl_enabled == True AND ssl_expires_at <= utcnow() + 30 days`
(a NULL `ssl_expires_at` never satisfies the comparison). -/
def expiringSoon (now : Nat) (d : Domain) : Bool :=
  d.ssl_enabled &&
    (match d.ssl_expires_at with
     | some t => t ≤ now + 30
     | none => false)

/-- The `for domain in expiring_soon:` loop: renew each domain in turn,
accumulating the attempted hostnames and the post-renewal records in
order. `renew_certificate` swallows its own exceptions, so the loop
never aborts early. -/
def renewSweep (w : CertWorld) : List Domain → List String × List Domain
  | [] => ([], [])
  | d :: rest =>
    let r := renew_certificate w d
    let acc := renewSweep w rest
    (d.domain :: acc.1, r.2 :: acc.2)

/-- `SSLService.auto_renew_expiring_certificates`: filter the domain
collection by the expiry window, then attempt renewal of every selected
domain. Returns the hostnames attempted (in order) and the post-sweep
domain records; the interleaved `db_session.commit()` is the caller's
persistence step and is modelled as non-failing. -/
def auto_renew_expiring_certificates (w : CertWorld) (domains : List Domain) :
    List String × List Domain :=
  renewSweep w (domains.filter (expiringSoon w.now))

end AuraOps.SSLService

namespace AuraOps.NginxService

/-!
## `NginxService.reload` (`nginx_service.py`, lines 250-281)

The reload protocol on the shared proxy container. `proxy_found = false`
covers the `docker.errors.NotFound` early return (and, observably
equivalently, any exception before the first `exec_run`: no command is
issued and the call reports failure). The returned trace lists the
commands actually issued to the proxy container, in order.
-/

/-- Outcomes of the two `exec_run` calls on the proxy container. -/
structure ProxyWorld where
  proxy_found : Bool
  test_exec : Except String Int
  reload_exec : Except String Int

/-- `NginxService.reload`: locate the proxy container, run `nginx -t`
first, and only on a zero validation exit run `nginx -s reload`; the
result is the success flag paired with the issued-command trace. -/
def reload (w : ProxyWorld) : Bool × List String :=
  if w.proxy_found = false then
    (false, [])
  else
    match w.test_exec with
    | .error _ => (false, ["nginx -t"])
    | .ok tc =>
      if tc ≠ 0 then
        (false, ["nginx -t"])
      else
        match w.reload_exec with
        | .error _ => (false, ["nginx -t", "nginx -s reload"])
        | .ok rc => (rc = 0, ["nginx -t", "nginx -s reload"])

end AuraOps.NginxService

namespace AuraOps.ServiceTemplates

/-!
## `ServiceTemplates` and `ServiceDeployer` (`service_templates.py`)

The static catalog. Each template's `env_vars` entry is a generator
invoked fresh per deployment; its calls to `secrets.token_urlsafe(16)`
are modelled by a token supply `Nat → String` drawn from the world, with
the n-th call of one generator reading index n. Declared health checks
are carried by the source but never enforced (`containers.run` does not
support them) and are omitted here.
-/

/-- One catalog entry: display name, image, named ports (insertion
order), optional command template with a `\x7bpassword\x7d` placeholder,
credential generator, named volume mounts and category. -/
structure ServiceTemplate where
  name : String
  image : String
  ports : List (String × Nat)
  command : Option String
  gen_env : (Nat → String) → EnvMap
  volumes : List (String × String)
  category : String

/-- `ServiceTemplates.TEMPLATES`, entry for entry. -/
def TEMPLATES : List (String × ServiceTemplate) := [
  ("minio",
   { name := "MinIO S3 Storage"
     image := "minio/minio:latest"
     ports := [("api", 9000), ("console", 9001)]
     command := some "server /data --console-address :9001"
     gen_env := fun tok =>
       [("MINIO_ROOT_USER", "minioadmin"), ("MINIO_ROOT_PASSWORD", tok 0)]
     volumes := [("data", "/data")]
     category := "storage" }),
  ("postgres",
   { name := "PostgreSQL Database"
     image := "postgres:16-alpine"
     ports := [("db", 5432)]
     command := none
     gen_env := fun tok =>
       [("POSTGRES_USER", "postgres"), ("POSTGRES_PASSWORD", tok 0),
        ("POSTGRES_DB", "app"), ("PGDATA", "/var/lib/postgresql/data/pgdata")]
     volumes := [("data", "/var/lib/postgresql/data")]
     category := "database" }),
  ("mysql",
   { name := "MySQL Database"
     image := "mysql:8.0"
     ports := [("db", 3306)]
     command := none
     gen_env := fun tok =>
       [("MYSQL_ROOT_PASSWORD", tok 0), ("MYSQL_DATABASE", "app"),
        ("MYSQL_USER", "app"), ("MYSQL_PASSWORD", tok 1)]
     volumes := [("data", "/var/lib/mysql")]
     category := "database" }),
  ("mongodb",
   { name := "MongoDB Database"
     image := "mongo:7"
     ports := [("db", 27017)]
     command := none
     gen_env := fun tok =>
       [("MONGO_INITDB_ROOT_USERNAME", "admin"),
        ("MONGO_INITDB_ROOT_PASSWORD", tok 0),
        ("MONGO_INITDB_DATABASE", "app")]
     volumes := [("data", "/data/db"), ("config", "/data/configdb")]
     category := "database" }),
  ("redis",
   { name := "Redis Cache"
     image := "redis:7-alpine"
     ports := [("cache", 6379)]
     command := some "redis-server --requirepass \x7bpassword\x7d"
     gen_env := fun tok => [("REDIS_PASSWORD", tok 0)]
     volumes := [("data", "/data")]
     category := "cache" }),
  ("rabbitmq",
   { name := "RabbitMQ Message Queue"
     image := "rabbitmq:3-management-alpine"
     ports := [("amqp", 5672), ("management", 15672)]
     command := none
     gen_env := fun tok =>
       [("RABBITMQ_DEFAULT_USER", "admin"), ("RABBITMQ_DEFAULT_PASSWORD", tok 0)]
     volumes := [("data", "/var/lib/rabbitmq")]
     category := "queue" }),
  ("elasticsearch",
   { name := "Elasticsearch Search Engine"
     image := "elasticsearch:8.11.0"
     ports := [("http", 9200), ("transport", 9300)]
     command := none
     gen_env := fun tok =>
       [("discovery.type", "single-node"), ("ELASTIC_PASSWORD", tok 0),
        ("xpack.security.enabled", "true")]
     volumes := [("data", "/usr/share/elasticsearch/data")]
     category := "search" })]

/-- `ServiceTemplates.get_template`: dict lookup of the lower-cased
service type. -/
def get_template (service_type : String) : Option ServiceTemplate :=
  ((TEMPLATES.find? (fun kv => kv.1 = strLower service_type)).map Prod.snd)

end AuraOps.ServiceTemplates

namespace AuraOps.ServiceDeployer

open AuraOps.ServiceTemplates

/-- Outcomes of the external calls of one `deploy_service` run.
`volume_setup` is the `volumes.get`-else-`volumes.create` pair for one
full volume name (`.ok ()` when the volume exists or is created);
`old_remove` is the `get`/`stop`/`remove` of a pre-existing service
container (`.ok ()` also covers `NotFound`); `run` is `containers.run`
applied to the (possibly substituted) command, yielding the short id. -/
structure ServiceWorld where
  tokens : Nat → String
  volume_setup : String → Except String Unit
  old_remove : Except String Unit
  run : Option String → Except String String

/-- The dict returned by `deploy_service`; the failed shape carries only
`status` and `message` (the other fields read as absent/empty), and the
nested `connection_info` is condensed to its `credentials` mapping plus
the `internal_url`. -/
structure ServiceResult where
  status : String
  service_type : String
  service_name : String
  container_id : String
  internal_url : String
  credentials : EnvMap
  message : String
  deriving Repr, DecidableEq

/-- The volume loop of `deploy_service`: idempotently ensure each named
volume `auraops-<id>-<vol>` exists. -/
def setupVolumes (w : ServiceWorld) (pid : Nat) : List (String × String) → Except String Unit
  | [] => .ok ()
  | (vol, _) :: rest => do
    w.volume_setup ("auraops-" ++ toString pid ++ "-" ++ vol)
    setupVolumes w pid rest

/-- The typed credentials payload, keyed by the *raw* `service_type`
string exactly as the source compares it (the template lookup
lower-cases, this dispatch does not). -/
def credentialsFor (service_type container_name : String) (env : EnvMap) : EnvMap :=
  if service_type = "postgres" then
    let user := (envGet env "POSTGRES_USER").getD ""
    let pw := (envGet env "POSTGRES_PASSWORD").getD ""
    let db := (envGet env "POSTGRES_DB").getD ""
    [("username", user), ("password", pw), ("database", db),
     ("connection_string",
      "postgresql://" ++ user ++ ":" ++ pw ++ "@" ++ container_name ++ ":5432/" ++ db)]
  else if service_type = "mysql" then
    let user := (envGet env "MYSQL_USER").getD ""
    let pw := (envGet env "MYSQL_PASSWORD").getD ""
    let rootpw := (envGet env "MYSQL_ROOT_PASSWORD").getD ""
    let db := (envGet env "MYSQL_DATABASE").getD ""
    [("username", user), ("password", pw), ("root_password", rootpw), ("database", db),
     ("connection_string",
      "mysql://" ++ user ++ ":" ++ pw ++ "@" ++ container_name ++ ":3306/" ++ db)]
  else if service_type = "mongodb" then
    let user := (envGet env "MONGO_INITDB_ROOT_USERNAME").getD ""
    let pw := (envGet env "MONGO_INITDB_ROOT_PASSWORD").getD ""
    let db := (envGet env "MONGO_INITDB_DATABASE").getD ""
    [("username", user), ("password", pw), ("database", db),
     ("connection_string",
      "mongodb://" ++ user ++ ":" ++ pw ++ "@" ++ container_name ++ ":27017/" ++ db
        ++ "?authSource=admin")]
  else if service_type = "redis" then
    let pw := (envGet env "REDIS_PASSWORD").getD ""
    [("password", pw),
     ("connection_string", "redis://:" ++ pw ++ "@" ++ container_name ++ ":6379")]
  else if service_type = "minio" then
    [("access_key", (envGet env "MINIO_ROOT_USER").getD ""),
     ("secret_key", (envGet env "MINIO_ROOT_PASSWORD").getD ""),
     ("endpoint", "http://" ++ container_name ++ ":9000"),
     ("console_url", "http://" ++ container_name ++ ":9001")]
  else []

/-- The `try` body of `deploy_service`: generate fresh credentials,
override them with any project-supplied entries, substitute a
`\x7bpassword\x7d` placeholder in the command template from the
generated `REDIS_PASSWORD`, ensure the volumes, remove any pre-existing
container, run the new one publishing all declared ports, and only then
overwrite `project.env_vars` with the merged environment. -/
def deploy_service_body (w : ServiceWorld) (p : Project) (template : ServiceTemplate)
    (service_type : String) : Except String (ServiceResult × Project) :=
  let container_name := "auraops-service-" ++ toString p.id
  let env_vars := template.gen_env w.tokens
  let env_vars := dictUpdate env_vars (p.env_vars.getD [])
  let command := template.command.map (fun c =>
    if strContains c "\x7bpassword\x7d" then
      strReplace c "\x7bpassword\x7d" ((envGet env_vars "REDIS_PASSWORD").getD "")
    else c)
  match setupVolumes w p.id template.volumes with
  | .error e => .error e
  | .ok _ =>
    match w.old_remove with
    | .error e => .error e
    | .ok _ =>
      let primary_port := (template.ports.map Prod.snd).headD 0
      match w.run command with
      | .error e => .error e
      | .ok cid =>
        .ok ({ status := "success"
               service_type := service_type
               service_name := template.name
               container_id := cid
               internal_url := "http://" ++ container_name ++ ":" ++ toString primary_port
               credentials := credentialsFor service_type container_name env_vars
               message := template.name ++ " deployed successfully" },
             { p with env_vars := some env_vars })

/-- `ServiceDeployer.deploy_service`. The unknown-type `ValueError` is
raised *before* the `try` block and escapes to the caller (`.error`);
every exception inside the body is caught and converted to the failed
dict, leaving the project unchanged. -/
def deploy_service (w : ServiceWorld) (p : Project) (service_type : String) :
    Except String (ServiceResult × Project) :=
  match ServiceTemplates.get_template service_type with
  | none => .error ("Unknown service type: " ++ service_type)
  | some template =>
    match deploy_service_body w p template service_type with
    | .ok r => .ok r
    | .error e =>
      .ok ({ status := "failed", service_type := "", service_name := ""
             container_id := "", internal_url := "", credentials := []
             message := e }, p)

end AuraOps.ServiceDeployer

namespace AuraOps.DockerService

/-!
## `DockerService.deploy_project` (`docker_service.py`)

The dispatcher routes a project to exactly one strategy by its
`deployment_type` string and catches everything a strategy lets escape
(in particular the unknown-type `ValueError` of its own `else` branch
and the one raised by `ServiceDeployer.deploy_service`), converting it
to the failed dict.
-/

/-- Outcomes of the external calls of `_deploy_docker_image`:
remove a pre-existing `auraops-app-<id>` container (`.ok ()` also
covers `NotFound`), pull the image, run the container. The trailing
`NginxService.write_config` catches its own exceptions and returns a
bool the strategy ignores. -/
structure ImageWorld where
  old_remove : Except String Unit
  pull : Except String Unit
  run : Except String String
  nginx_write_ok : Bool

/-- Outcomes of the external calls of `_deploy_dockerfile`: shallow
clone (`subprocess.run(..., check=True)` raising on a nonzero exit),
image build yielding `(id, short_id)`, pre-existing container removal,
container run; `write_config` as above. -/
structure DockerfileWorld where
  clone : Except String Unit
  build_image : Except String (String × String)
  old_remove : Except String Unit
  run : Except String String
  nginx_write_ok : Bool

/-- The dict returned by the image and dockerfile strategies (the failed
shape carries only `status` and `message`). -/
structure RunResult where
  status : String
  container_id : Option String
  image_id : Option String
  message : String
  deriving Repr, DecidableEq

/-- `DockerService._deploy_docker_image`: remove the old container, pull
the image named by `repo_url`, run it under `auraops-app-<id>`,
regenerate the proxy config; every exception becomes the failed dict.
The project record is not touched. -/
def deploy_docker_image (w : ImageWorld) (_p : Project) : RunResult :=
  match w.old_remove with
  | .error e => { status := "failed", container_id := none, image_id := none, message := e }
  | .ok _ =>
    match w.pull with
    | .error e => { status := "failed", container_id := none, image_id := none, message := e }
    | .ok _ =>
      match w.run with
      | .error e => { status := "failed", container_id := none, image_id := none, message := e }
      | .ok cid =>
        { status := "success", container_id := some cid, image_id := none
          message := "Container deployed successfully" }

/-- `DockerService._deploy_dockerfile`: clone, build the image, remove
the old container, run the new one, regenerate the proxy config; every
exception becomes the failed dict. The project record is not touched. -/
def deploy_dockerfile (w : DockerfileWorld) (_p : Project) : RunResult :=
  match w.clone with
  | .error e => { status := "failed", container_id := none, image_id := none, message := e }
  | .ok _ =>
    match w.build_image with
    | .error e => { status := "failed", container_id := none, image_id := none, message := e }
    | .ok (_, image_short) =>
      match w.old_remove with
      | .error e => { status := "failed", container_id := none, image_id := none, message := e }
      | .ok _ =>
        match w.run with
        | .error e => { status := "failed", container_id := none, image_id := none, message := e }
        | .ok cid =>
          { status := "success", container_id := some cid, image_id := some image_short
            message := "Built and deployed successfully" }

/-- One world per strategy, so each dispatch target has its own
external-call outcomes. -/
structure DockerWorld where
  image : ImageWorld
  dfile : DockerfileWorld
  compose : ComposeService.ComposeWorld
  build : BuildService.BuildWorld
  service : ServiceDeployer.ServiceWorld

/-- The differently shaped dicts a dispatch can return, tagged by shape;
`failed` is the dispatcher's own handler dict `status=failed, message`. -/
inductive Result where
  | build (r : BuildService.BuildResult)
  | run (r : RunResult)
  | compose (r : ComposeService.ComposeResult)
  | service (r : ServiceDeployer.ServiceResult)
  | failed (message : String)
  deriving Repr, DecidableEq

/-- The `status` field of whichever dict was returned. -/
def Result.status : Result → String
  | .build r => r.status
  | .run r => r.status
  | .compose r => r.status
  | .service r => r.status
  | .failed _ => "failed"

/-- `_deploy_service`'s derivation of the service type:
`project.repo_url.lower() if project.repo_url else "postgres"`. -/
def serviceTypeOf (p : Project) : String :=
  if p.repo_url ≠ "" then strLower p.repo_url else "postgres"

/-- `DockerService.deploy_project`: string-tag dispatch over
`deployment_type`. The `service` arm derives the service type from the
lower-cased `repo_url` (defaulting to `postgres` when unset) and is the
only arm whose strategy can raise into the dispatcher's handler; an
unrecognized tag raises `ValueError`, caught by the same handler.
Returns the result dict and the (possibly mutated) project record. -/
def deploy_project (w : DockerWorld) (p : Project) : Result × Project :=
  if p.deployment_type = "static_build" then
    let o := BuildService.build_static_site w.build p
    (.build o.result, o.project)
  else if p.deployment_type = "docker_image" then
    (.run (deploy_docker_image w.image p), p)
  else if p.deployment_type = "dockerfile" then
    (.run (deploy_dockerfile w.dfile p), p)
  else if p.deployment_type = "docker_compose" then
    let r := ComposeService.deploy_compose_project w.compose p
    (.compose r.1, r.2)
  else if p.deployment_type = "service" then
    match ServiceDeployer.deploy_service w.service p (serviceTypeOf p) with
    | .ok r => (.service r.1, r.2)
    | .error e => (.failed e, p)
  else
    (.failed ("Unknown deployment type: " ++ p.deployment_type), p)

end AuraOps.DockerService

namespace AuraOps

/-!
## Concrete fixtures

Sample projects, domains and worlds used to evaluate the embedded
operations on closed inputs.
-/

/-- A static-build project in its pre-deploy state. -/
def sampleProject : Project :=
  { id := 7
    name := "demo"
    deployment_type := "static_build"
    repo_url := "https://example.com/repo.git"
    branch := "main"
    compose_file := Except.error "Invalid docker-compose.yml: services key not found"
    install_command := none
    build_command := none
    static_dir := none
    port := 3000
    env_vars := none
    status := "stopped"
    build_logs := "" }

/-- A managed-service project whose `repo_url` selects the redis
template and which carries one caller-supplied environment entry. -/
def sampleServiceProject : Project :=
  { sampleProject with
    id := 9, deployment_type := "service", repo_url := "redis",
    env_vars := some [("MYOPT", "1")] }

/-- A service project naming a type absent from the catalog. -/
def unknownServiceProject : Project :=
  { sampleProject with id := 11, deployment_type := "service", repo_url := "foo" }

/-- A project with an unrecognized deployment type. -/
def unknownTypeProject : Project :=
  { sampleProject with id := 12, deployment_type := "fancy" }

/-- A direct-image project. -/
def imageProject : Project :=
  { sampleProject with id := 13, deployment_type := "docker_image", repo_url := "nginx:alpine" }

/-- A build world in which every step succeeds. -/
def okBuildWorld : BuildService.BuildWorld :=
  { create := .ok "abc123"
    clone := .ok (0, "")
    install := .ok { lines := [], exit_code := 0 }
    build := .ok { lines := [], exit_code := 0 }
    copy_exit := 0
    teardown := .ok ()
    nginx_write_ok := true }

/-- A build world whose git clone exits non-zero. -/
def cloneFailBuildWorld : BuildService.BuildWorld :=
  { okBuildWorld with clone := .ok (1, "fatal: repository not found") }

/-- A build world whose install command exits non-zero — invisible to
the pipeline because the install output is streamed. -/
def installFailBuildWorld : BuildService.BuildWorld :=
  { okBuildWorld with install := .ok { lines := [], exit_code := 1 } }

/-- A service world in which every external call succeeds. -/
def okServiceWorld : ServiceDeployer.ServiceWorld :=
  { tokens := fun n => "tok" ++ toString n
    volume_setup := fun _ => .ok ()
    old_remove := .ok ()
    run := fun _ => .ok "cid123" }

/-- An image-strategy world in which every external call succeeds. -/
def okImageWorld : DockerService.ImageWorld :=
  { old_remove := .ok (), pull := .ok (), run := .ok "cid1", nginx_write_ok := true }

/-- A dockerfile-strategy world in which every external call succeeds. -/
def okDockerfileWorld : DockerService.DockerfileWorld :=
  { clone := .ok (), build_image := .ok ("sha256:abc", "abc"), old_remove := .ok (),
    run := .ok "cid2", nginx_write_ok := true }

/-- A compose world in which every external call succeeds. -/
def okComposeWorld : ComposeService.ComposeWorld :=
  { network_create := .created
    volume_create := fun _ => .created
    old_remove := fun _ => .ok ()
    run := fun n => .ok ("cid-" ++ n) }

/-- A full dispatcher world built from the successful strategy worlds. -/
def okDockerWorld : DockerService.DockerWorld :=
  { image := okImageWorld, dfile := okDockerfileWorld, compose := okComposeWorld,
    build := okBuildWorld, service := okServiceWorld }

/-- A dependency-free two-service manifest. -/
def twoServiceData : ComposeData :=
  { services :=
      [("s1", { image := some "nginx:alpine", build := false, depends_on := [], links := [] }),
       ("s2", { image := some "redis:7", build := false, depends_on := [], links := [] })]
    volumes := [] }

/-- A compose project carrying the two-service manifest. -/
def composeProject : Project :=
  { sampleProject with
    id := 5, deployment_type := "docker_compose",
    compose_file := Except.ok twoServiceData }

/-- A compose world in which stopping the pre-existing container of
service `s2` raises a runtime API error. -/
def abortComposeWorld : ComposeService.ComposeWorld :=
  { okComposeWorld with
    old_remove := fun name => if name = "s2" then .error "API error: conflict" else .ok () }

/-- A compose world in which `containers.run` for service `s1` raises
while every other call succeeds. -/
def runFailComposeWorld : ComposeService.ComposeWorld :=
  { okComposeWorld with
    run := fun name => if name = "s1" then .error "boom" else .ok ("cid-" ++ name) }

/-- A certificate world where both certbot invocations exit zero. -/
def okCertWorld : SSLService.CertWorld :=
  { now := 100, certbot_issue := .ok 0, certbot_renew := fun _ => .ok 0 }

/-- A certificate world where certbot certonly exits non-zero. -/
def failIssueCertWorld : SSLService.CertWorld :=
  { okCertWorld with certbot_issue := .ok 1 }

/-- A certificate world where renewal fails for `ten.example.com` only. -/
def mixedRenewCertWorld : SSLService.CertWorld :=
  { okCertWorld with
    certbot_renew := fun nm => if nm = "ten.example.com" then .error "renew blew up" else .ok 0 }

/-- A wildcard domain without TLS state. -/
def wildcardDomain : Domain :=
  { domain := "*.example.com", ssl_enabled := false, ssl_issued_at := none,
    ssl_expires_at := none }

/-- A concrete hostname without TLS state. -/
def appDomain : Domain :=
  { domain := "app.example.com", ssl_enabled := false, ssl_issued_at := none,
    ssl_expires_at := none }

/-- An enabled domain 10 days from expiry at `now = 100`. -/
def domainTen : Domain :=
  { domain := "ten.example.com", ssl_enabled := true, ssl_issued_at := some 20,
    ssl_expires_at := some 110 }

/-- A second enabled domain 10 days from expiry at `now = 100`. -/
def domainTen2 : Domain :=
  { domain := "ten2.example.com", ssl_enabled := true, ssl_issued_at := some 20,
    ssl_expires_at := some 110 }

/-- An enabled domain 60 days from expiry at `now = 100`. -/
def domainSixty : Domain :=
  { domain := "sixty.example.com", ssl_enabled := true, ssl_issued_at := some 70,
    ssl_expires_at := some 160 }

/-- A proxy world where the proxy is found and both commands exit 0. -/
def okProxyWorld : NginxService.ProxyWorld :=
  { proxy_found := true, test_exec := .ok 0, reload_exec := .ok 0 }

/-- A proxy world where the syntax validation exits non-zero. -/
def badConfigProxyWorld : NginxService.ProxyWorld :=
  { okProxyWorld with test_exec := .ok 1 }

/-- The successful payload of the redis deployment used as the C10
concrete instance (projected out of the `Except`). -/
def c10out : ServiceDeployer.ServiceResult × Project :=
  (ServiceDeployer.deploy_service okServiceWorld sampleServiceProject "redis").toOption.getD
    ({ status := "", service_type := "", service_name := "", container_id := "",
       internal_url := "", credentials := [], message := "" }, sampleServiceProject)

/-- C1: For the acyclic dependency map `A -> [B, C], B -> [C]` the claim
requires an order placing C before B before A, but the code raises the
circular-dependency error: `in_degree[dep] += 1` counts how many services
depend on `dep` (instead of counting the dependencies of each service),
so every initially queued node is depended on by nobody and the decrement
branch never fires; any map with at least one dependency edge is reported
as circular. The genuinely cyclic map `X -> [Y], Y -> [X]` also errors,
and a dependency-free map is returned in full. -/
theorem C1_topological_sort_rejects_acyclic_map :
    ComposeService.topological_sort [("A", ["B", "C"]), ("B", ["C"])] =
      Except.error "Circular dependency detected in docker-compose.yml" ∧
    ComposeService.topological_sort [("X", ["Y"]), ("Y", ["X"])] =
      Except.error "Circular dependency detected in docker-compose.yml" ∧
    ComposeService.topological_sort [("A", []), ("B", [])] =
      Except.ok ["A", "B"] := by
  refine ⟨rfl, rfl, rfl⟩

set_option maxHeartbeats 1000000 in
/-- On every path, the log text persisted to `project.build_logs` is
exactly the joined log list returned in the result dict. -/
theorem build_logs_persisted (w : BuildService.BuildWorld) (p : Project) :
    (BuildService.build_static_site w p).project.build_logs =
      BuildService.joinLines (BuildService.build_static_site w p).result.logs := by
  obtain ⟨cr, cl, inst, bld, cp, td, ng⟩ := w
  cases cr with
  | error e => rfl
  | ok sid =>
    cases cl with
    | error e => rfl
    | ok pr =>
      obtain ⟨c, out⟩ := pr
      by_cases hc : c = 0
      · subst hc
        cases inst with
        | error e => rfl
        | ok i =>
          cases bld with
          | error e => rfl
          | ok b =>
            cases td with
            | error e => rfl
            | ok u => rfl
      · simp only [BuildService.build_static_site]
        rw [if_pos hc]
        rfl

set_option maxHeartbeats 1000000 in
/-- C2: amended. The claim held only for the fetch step: a fetch failure
(exception or non-zero exit) truncates the remaining steps, appends an
`[ERROR]` entry as the final log entry, marks the result failed, still
attempts container teardown, and returns the full log (which is also
persisted to `project.build_logs`); a run in which no step raises and
the fetch exits zero returns status `success` with `[SUCCESS]` entries
for fetch, install, build and copy — regardless of the exit statuses of
the install, build and copy commands, which the pipeline never
inspects. -/
theorem C2_build_pipeline_failure_handling (w : BuildService.BuildWorld) (p : Project) :
    ((BuildService.build_static_site w p).project.build_logs =
      BuildService.joinLines (BuildService.build_static_site w p).result.logs) ∧
    (∀ sid c out, w.create = Except.ok sid → w.clone = Except.ok (c, out) → c ≠ 0 →
      (BuildService.build_static_site w p).result.status = "failed" ∧
      (BuildService.build_static_site w p).cleanup_attempted = true ∧
      (BuildService.build_static_site w p).result.logs.getLast? =
        some ("[ERROR] Build failed: Git clone failed: " ++ out)) ∧
    (∀ sid e, w.create = Except.ok sid → w.clone = Except.error e →
      (BuildService.build_static_site w p).result.status = "failed" ∧
      (BuildService.build_static_site w p).cleanup_attempted = true ∧
      (BuildService.build_static_site w p).result.logs.getLast? =
        some ("[ERROR] Build failed: " ++ e)) ∧
    (∀ sid out inst bld, w.create = Except.ok sid → w.clone = Except.ok (0, out) →
      w.install = Except.ok inst → w.build = Except.ok bld → w.teardown = Except.ok () →
      (BuildService.build_static_site w p).result.status = "success" ∧
      "[SUCCESS] Repository cloned" ∈ (BuildService.build_static_site w p).result.logs ∧
      "[SUCCESS] Dependencies installed" ∈ (BuildService.build_static_site w p).result.logs ∧
      "[SUCCESS] Build completed" ∈ (BuildService.build_static_site w p).result.logs ∧
      ("[SUCCESS] Files copied to " ++ ("/var/www/project-" ++ toString p.id)) ∈
        (BuildService.build_static_site w p).result.logs) := by
  refine ⟨build_logs_persisted w p, ?_, ?_, ?_⟩
  · rintro sid c out h1 h2 hc
    obtain ⟨cr, cl, inst, bld, cp, td, ng⟩ := w
    simp only at h1 h2
    subst h1; subst h2
    simp only [BuildService.build_static_site]
    rw [if_pos hc]
    simp only [BuildService.buildFail]
    refine ⟨by trivial, by trivial, ?_⟩
    rw [List.getLast?_append_cons]
    rfl
  · rintro sid e h1 h2
    obtain ⟨cr, cl, inst, bld, cp, td, ng⟩ := w
    simp only at h1 h2
    subst h1; subst h2
    simp only [BuildService.build_static_site, BuildService.buildFail]
    refine ⟨by trivial, by trivial, ?_⟩
    rw [List.getLast?_append_cons]
    rfl
  · rintro sid out inst bld h1 h2 h3 h4 h5
    obtain ⟨cr, cl, wi, wb, cp, td, ng⟩ := w
    simp only at h1 h2 h3 h4 h5
    subst h1; subst h2; subst h3; subst h4; subst h5
    refine ⟨rfl, ?_, ?_, ?_, ?_⟩ <;>
      simp [BuildService.build_static_site, List.mem_append]

/-- C2: counterexample to the claim as stated — a failing install step
(the install command exits 1) does not truncate the pipeline, does not
append an `[ERROR]` entry, and does not mark the result failed: the run
reports success, because the streamed install output carries no exit
code the pipeline could check. -/
theorem C2_counterexample_install_failure_reports_success :
    installFailBuildWorld.install = Except.ok { lines := [], exit_code := 1 } ∧
    (BuildService.build_static_site installFailBuildWorld sampleProject).result.status =
      "success" ∧
    (BuildService.build_static_site installFailBuildWorld sampleProject).result.logs.all
      (fun l => !(strStartsWith l "[ERROR]")) = true := by
  refine ⟨rfl, rfl, rfl⟩

/-- C2 witness: the amended theorem applied to the concrete failing-fetch
world and to the concrete all-success world. -/
theorem C2_build_pipeline_failure_handling_witness :
    ((BuildService.build_static_site cloneFailBuildWorld sampleProject).result.status =
        "failed" ∧
      (BuildService.build_static_site cloneFailBuildWorld sampleProject).cleanup_attempted =
        true ∧
      (BuildService.build_static_site cloneFailBuildWorld sampleProject).result.logs.getLast? =
        some ("[ERROR] Build failed: Git clone failed: " ++ "fatal: repository not found")) ∧
    (BuildService.build_static_site okBuildWorld sampleProject).result.status = "success" :=
  ⟨(C2_build_pipeline_failure_handling cloneFailBuildWorld sampleProject).2.1
      "abc123" 1 "fatal: repository not found" rfl rfl (by decide),
   ((C2_build_pipeline_failure_handling okBuildWorld sampleProject).2.2.2
      "abc123" "" { lines := [], exit_code := 0 } { lines := [], exit_code := 0 }
      rfl rfl rfl rfl rfl).1⟩

/-- C3: counterexample to the claim as stated — `deploy_service` with an
unknown service type raises the `ValueError` before entering its `try`
block, so the error escapes to the caller instead of being returned as a
structured failed Result. -/
theorem C3_counterexample_unknown_type_escapes :
    ServiceDeployer.deploy_service okServiceWorld sampleServiceProject "unknown" =
      Except.error "Unknown service type: unknown" := rfl

/-- C3: amended. `deploy_service` itself raises for an unknown
service type (the `ValueError` escapes to its direct caller); for any
catalog type it always returns a structured Result, success or failed;
and the top-level dispatcher catches the escaped error, so through
`deploy_project` even an unknown service type yields a failed Result. -/
theorem C3_operations_return_results (w : ServiceDeployer.ServiceWorld)
    (dw : DockerService.DockerWorld) (p : Project) (st : String) :
    (ServiceTemplates.get_template st = none →
      ServiceDeployer.deploy_service w p st =
        Except.error ("Unknown service type: " ++ st)) ∧
    (∀ t, ServiceTemplates.get_template st = some t →
      ∃ r, ServiceDeployer.deploy_service w p st = Except.ok r) ∧
    (p.deployment_type = "service" →
      ServiceTemplates.get_template (DockerService.serviceTypeOf p) = none →
      DockerService.deploy_project dw p =
        (DockerService.Result.failed
          ("Unknown service type: " ++ DockerService.serviceTypeOf p), p)) := by
  refine ⟨?_, ?_, ?_⟩
  · intro h
    simp [ServiceDeployer.deploy_service, h]
  · intro t h
    simp only [ServiceDeployer.deploy_service, h]
    cases hb : ServiceDeployer.deploy_service_body w p t st with
    | ok x => exact ⟨x, rfl⟩
    | error e => exact ⟨_, rfl⟩
  · intro h1 h2
    simp [DockerService.deploy_project, h1, ServiceDeployer.deploy_service, h2]

/-- C3 witness: the amended theorem applied to an unknown and a known
service type, and to a service project naming an uncataloged type. -/
theorem C3_operations_return_results_witness :
    (∃ r, ServiceDeployer.deploy_service okServiceWorld sampleServiceProject "redis" =
      Except.ok r) ∧
    DockerService.deploy_project okDockerWorld unknownServiceProject =
      (DockerService.Result.failed "Unknown service type: foo", unknownServiceProject) :=
  ⟨(C3_operations_return_results okServiceWorld okDockerWorld sampleServiceProject
      "redis").2.1 _ rfl,
   (C3_operations_return_results okServiceWorld okDockerWorld unknownServiceProject
      "foo").2.2 rfl rfl⟩

/-- C4: `issue_certificate` rejects every hostname beginning with `*.`
immediately, leaving the domain untouched; for other hostnames a zero
certbot exit sets `ssl_enabled`, stamps `ssl_issued_at` and sets
`ssl_expires_at` exactly 90 days ahead, while a non-zero exit or an
exception leaves every TLS field unchanged and reports failure. -/
theorem C4_issue_certificate_guards (w : SSLService.CertWorld) (d : Domain) :
    (strStartsWith d.domain "*." = true →
      SSLService.issue_certificate w d = (false, d)) ∧
    (strStartsWith d.domain "*." = false →
      (w.certbot_issue = Except.ok 0 →
        SSLService.issue_certificate w d =
          (true, { d with ssl_enabled := true
                          ssl_issued_at := some w.now
                          ssl_expires_at := some (w.now + 90) })) ∧
      (∀ rc, w.certbot_issue = Except.ok rc → rc ≠ 0 →
        SSLService.issue_certificate w d = (false, d)) ∧
      (∀ e, w.certbot_issue = Except.error e →
        SSLService.issue_certificate w d = (false, d))) := by
  constructor
  · intro h
    simp [SSLService.issue_certificate, h]
  · intro h
    refine ⟨?_, ?_, ?_⟩
    · intro hok
      simp [SSLService.issue_certificate, h, hok]
    · intro rc hrc hne
      simp [SSLService.issue_certificate, h, hrc, hne]
    · intro e he
      simp [SSLService.issue_certificate, h, he]

/-- C4 witness: issuing for `*.example.com` fails with zero mutation;
issuing for `app.example.com` with certbot exit 0 stamps the 90-day
window; certbot exit 1 leaves the domain unchanged. -/
theorem C4_issue_certificate_guards_witness :
    SSLService.issue_certificate okCertWorld wildcardDomain = (false, wildcardDomain) ∧
    SSLService.issue_certificate okCertWorld appDomain =
      (true, { appDomain with ssl_enabled := true
                              ssl_issued_at := some 100
                              ssl_expires_at := some 190 }) ∧
    SSLService.issue_certificate failIssueCertWorld appDomain = (false, appDomain) :=
  ⟨(C4_issue_certificate_guards okCertWorld wildcardDomain).1 rfl,
   ((C4_issue_certificate_guards okCertWorld appDomain).2 rfl).1 rfl,
   ((C4_issue_certificate_guards failIssueCertWorld appDomain).2 rfl).2.1 1 rfl
     (by decide)⟩

/-- C6: the reload signal is issued only after the syntax validation has
exited zero; a non-zero validation exit or a validation exception yields
failure without the signal ever being sent; and the reload reports
success exactly when the proxy was found, validation exited zero and the
reload command exited zero. -/
theorem C6_reload_gated_by_validation (w : NginxService.ProxyWorld) :
    ("nginx -s reload" ∈ (NginxService.reload w).2 → w.test_exec = Except.ok 0) ∧
    (∀ tc, w.test_exec = Except.ok tc → tc ≠ 0 →
      (NginxService.reload w).1 = false ∧
      "nginx -s reload" ∉ (NginxService.reload w).2) ∧
    (∀ e, w.test_exec = Except.error e →
      (NginxService.reload w).1 = false ∧
      "nginx -s reload" ∉ (NginxService.reload w).2) ∧
    ((NginxService.reload w).1 = true ↔
      w.proxy_found = true ∧ w.test_exec = Except.ok 0 ∧ w.reload_exec = Except.ok 0) := by
  obtain ⟨pf, te, re⟩ := w
  cases pf with
  | false => simp [NginxService.reload]
  | true =>
    cases te with
    | error e => simp [NginxService.reload]
    | ok tc =>
      by_cases htc : tc = 0
      · subst htc
        cases re with
        | error e => simp [NginxService.reload]
        | ok rc => simp [NginxService.reload, eq_comm]
      · simp [NginxService.reload, htc]

/-- C6 witness: a failing validation blocks the signal and reports
failure; the all-success world reloads successfully. -/
theorem C6_reload_gated_by_validation_witness :
    ((NginxService.reload badConfigProxyWorld).1 = false ∧
      "nginx -s reload" ∉ (NginxService.reload badConfigProxyWorld).2) ∧
    (NginxService.reload okProxyWorld).1 = true :=
  ⟨(C6_reload_gated_by_validation badConfigProxyWorld).2.1 1 rfl (by decide),
   (C6_reload_gated_by_validation okProxyWorld).2.2.2.mpr ⟨rfl, rfl, rfl⟩⟩

/-- The attempted-hostname component of the sweep loop lists every
domain handed to it, in order, independently of renewal outcomes. -/
theorem renewSweep_attempted (w : SSLService.CertWorld) (l : List Domain) :
    (SSLService.renewSweep w l).1 = l.map (fun d => d.domain) := by
  induction l with
  | nil => rfl
  | cons d t ih => simp [SSLService.renewSweep, ih]

/-- C7: the auto-renew sweep attempts exactly the domains that are
enabled with `ssl_expires_at` at most 30 days away — for any world, so
one domain's failure never blocks the rest; at `now = 100` a domain
expiring at 110 is selected and one at 160 is not, and with a world
where the first domain's renewal raises, the later selected domain is
still attempted. -/
theorem C7_auto_renew_sweep (w : SSLService.CertWorld) (domains : List Domain) :
    (SSLService.auto_renew_expiring_certificates w domains).1 =
      (domains.filter (SSLService.expiringSoon w.now)).map (fun d => d.domain) ∧
    SSLService.expiringSoon 100 domainTen = true ∧
    SSLService.expiringSoon 100 domainSixty = false ∧
    (SSLService.auto_renew_expiring_certificates mixedRenewCertWorld
        [domainTen, domainSixty, domainTen2]).1 =
      ["ten.example.com", "ten2.example.com"] :=
  ⟨renewSweep_attempted w (domains.filter (SSLService.expiringSoon w.now)), rfl, rfl, rfl⟩

/-- C5: the dispatcher routes each recognized `deployment_type` to
exactly its corresponding strategy function (for the `service` arm, to
`ServiceDeployer.deploy_service` with the escaped error caught), and an
unrecognized value yields the failed dict without raising past the
dispatcher. -/
theorem C5_dispatcher_routing (w : DockerService.DockerWorld) (p : Project) :
    (p.deployment_type = "static_build" →
      DockerService.deploy_project w p =
        (DockerService.Result.build (BuildService.build_static_site w.build p).result,
          (BuildService.build_static_site w.build p).project)) ∧
    (p.deployment_type = "docker_image" →
      DockerService.deploy_project w p =
        (DockerService.Result.run (DockerService.deploy_docker_image w.image p), p)) ∧
    (p.deployment_type = "dockerfile" →
      DockerService.deploy_project w p =
        (DockerService.Result.run (DockerService.deploy_dockerfile w.dfile p), p)) ∧
    (p.deployment_type = "docker_compose" →
      DockerService.deploy_project w p =
        (DockerService.Result.compose (ComposeService.deploy_compose_project w.compose p).1,
          (ComposeService.deploy_compose_project w.compose p).2)) ∧
    (p.deployment_type = "service" →
      (∀ r, ServiceDeployer.deploy_service w.service p (DockerService.serviceTypeOf p) =
          Except.ok r →
        DockerService.deploy_project w p = (DockerService.Result.service r.1, r.2)) ∧
      (∀ e, ServiceDeployer.deploy_service w.service p (DockerService.serviceTypeOf p) =
          Except.error e →
        DockerService.deploy_project w p = (DockerService.Result.failed e, p))) ∧
    (p.deployment_type ∉ ["static_build", "docker_image", "dockerfile",
        "docker_compose", "service"] →
      DockerService.deploy_project w p =
        (DockerService.Result.failed
          ("Unknown deployment type: " ++ p.deployment_type), p) ∧
      (DockerService.deploy_project w p).1.status = "failed") := by
  refine ⟨?_, ?_, ?_, ?_, ?_, ?_⟩
  · intro h; simp [DockerService.deploy_project, h]
  · intro h; simp [DockerService.deploy_project, h]
  · intro h; simp [DockerService.deploy_project, h]
  · intro h; simp [DockerService.deploy_project, h]
  · intro h
    constructor
    · intro r hr; simp [DockerService.deploy_project, h, hr]
    · intro e he; simp [DockerService.deploy_project, h, he]
  · intro h
    simp only [List.mem_cons, List.not_mem_nil, or_false] at h
    push_neg at h
    obtain ⟨h1, h2, h3, h4, h5⟩ := h
    refine ⟨?_, ?_⟩
    · simp [DockerService.deploy_project, h1, h2, h3, h4, h5]
    · simp [DockerService.deploy_project, DockerService.Result.status, h1, h2, h3, h4, h5]

/-- C5 witness: the routing theorem applied to an unrecognized type and
to a direct-image project. -/
theorem C5_dispatcher_routing_witness :
    DockerService.deploy_project okDockerWorld unknownTypeProject =
      (DockerService.Result.failed "Unknown deployment type: fancy", unknownTypeProject) ∧
    DockerService.deploy_project okDockerWorld imageProject =
      (DockerService.Result.run
        (DockerService.deploy_docker_image okImageWorld imageProject), imageProject) :=
  ⟨((C5_dispatcher_routing okDockerWorld unknownTypeProject).2.2.2.2.2 (by decide)).1,
   (C5_dispatcher_routing okDockerWorld imageProject).2.1 rfl⟩

set_option maxHeartbeats 1000000 in
/-- The build pipeline leaves the project in `running` exactly on the
success result and in `failed` on the failed result. -/
theorem build_status_dichotomy (w : BuildService.BuildWorld) (p : Project) :
    ((BuildService.build_static_site w p).result.status = "success" ∧
      (BuildService.build_static_site w p).project.status = "running") ∨
    ((BuildService.build_static_site w p).result.status = "failed" ∧
      (BuildService.build_static_site w p).project.status = "failed") := by
  obtain ⟨cr, cl, inst, bld, cp, td, ng⟩ := w
  cases cr with
  | error e => right; exact ⟨rfl, rfl⟩
  | ok sid =>
    cases cl with
    | error e => right; exact ⟨rfl, rfl⟩
    | ok pr =>
      obtain ⟨c, out⟩ := pr
      by_cases hc : c = 0
      · subst hc
        cases inst with
        | error e => right; exact ⟨rfl, rfl⟩
        | ok i =>
          cases bld with
          | error e => right; exact ⟨rfl, rfl⟩
          | ok b =>
            cases td with
            | error e => right; exact ⟨rfl, rfl⟩
            | ok u => left; exact ⟨rfl, rfl⟩
      · right
        simp only [BuildService.build_static_site]
        rw [if_pos hc]
        exact ⟨rfl, rfl⟩

/-- A successful `deploy_service` body reports success and returns the
project with `env_vars` overwritten by the merged environment and every
other field unchanged. -/
theorem deploy_service_body_ok (w : ServiceDeployer.ServiceWorld) (p : Project)
    (t : ServiceTemplates.ServiceTemplate) (st : String)
    (x : ServiceDeployer.ServiceResult × Project)
    (h : ServiceDeployer.deploy_service_body w p t st = Except.ok x) :
    x.1.status = "success" ∧
    x.2 = { p with
      env_vars := some (dictUpdate (t.gen_env w.tokens) (p.env_vars.getD [])) } := by
  simp only [ServiceDeployer.deploy_service_body] at h
  split at h
  · simp at h
  · split at h
    · simp at h
    · split at h
      · simp at h
      · obtain rfl := Except.ok.inj h
        exact ⟨rfl, rfl⟩

/-- `deploy_service` never changes `status`: the failed dict returns the
project untouched and the success path only rewrites `env_vars`. -/
theorem deploy_service_preserves_status (w : ServiceDeployer.ServiceWorld) (p : Project)
    (st : String) (r : ServiceDeployer.ServiceResult) (p' : Project)
    (h : ServiceDeployer.deploy_service w p st = Except.ok (r, p')) :
    p'.status = p.status := by
  simp only [ServiceDeployer.deploy_service] at h
  split at h
  · simp at h
  · split at h
    · rename_i val hb
      obtain rfl := Except.ok.inj h
      show ((r, p').2).status = p.status
      rw [(deploy_service_body_ok w p _ st (r, p') hb).2]
    · injection (Except.ok.inj h) with h1 h2
      rw [← h2]

/-- C9: amended. The image, dockerfile, compose and managed-service
deploy paths leave `project.status` (indeed, for the first three, the
whole record) unchanged; only the static-build path mutates it, setting
`building` on entry and leaving `running` on a success result and
`failed` on a failed result. -/
theorem C9_status_mutation (w : DockerService.DockerWorld) (p : Project) :
    (p.deployment_type = "docker_image" → (DockerService.deploy_project w p).2 = p) ∧
    (p.deployment_type = "dockerfile" → (DockerService.deploy_project w p).2 = p) ∧
    (p.deployment_type = "docker_compose" → (DockerService.deploy_project w p).2 = p) ∧
    (p.deployment_type = "service" →
      (DockerService.deploy_project w p).2.status = p.status) ∧
    (p.deployment_type ∉ ["static_build", "docker_image", "dockerfile",
        "docker_compose", "service"] →
      (DockerService.deploy_project w p).2 = p) ∧
    (p.deployment_type = "static_build" →
      ((DockerService.deploy_project w p).1.status = "success" →
        (DockerService.deploy_project w p).2.status = "running") ∧
      ((DockerService.deploy_project w p).1.status = "failed" →
        (DockerService.deploy_project w p).2.status = "failed")) := by
  refine ⟨?_, ?_, ?_, ?_, ?_, ?_⟩
  · intro h; simp [DockerService.deploy_project, h]
  · intro h; simp [DockerService.deploy_project, h]
  · intro h; simp [DockerService.deploy_project, h, ComposeService.deploy_compose_project]
    split <;> rfl
  · intro h
    simp only [DockerService.deploy_project, h]
    norm_num
    cases hd : ServiceDeployer.deploy_service w.service p (DockerService.serviceTypeOf p) with
    | ok val =>
      simp only [hd]
      exact deploy_service_preserves_status w.service p _ val.1 val.2 (by rw [hd])
    | error e => simp [hd]
  · intro h
    simp only [List.mem_cons, List.not_mem_nil, or_false] at h
    push_neg at h
    obtain ⟨h1, h2, h3, h4, h5⟩ := h
    simp [DockerService.deploy_project, h1, h2, h3, h4, h5]
  · intro h
    simp only [DockerService.deploy_project, h]
    norm_num [DockerService.Result.status]
    rcases build_status_dichotomy w.build p with ⟨h1, h2⟩ | ⟨h1, h2⟩ <;>
      simp [h1, h2]

/-- C9: counterexample to the claim as stated — the static-build path
mutates `status`: a stopped project is left `running` after a successful
dispatched deploy. -/
theorem C9_counterexample_build_mutates_status :
    sampleProject.status = "stopped" ∧
    (DockerService.deploy_project okDockerWorld sampleProject).2.status = "running" :=
  ⟨rfl, rfl⟩

/-- C9 witness: the amended theorem applied to an image project, a
service project and the static-build project. -/
theorem C9_status_mutation_witness :
    (DockerService.deploy_project okDockerWorld imageProject).2 = imageProject ∧
    (DockerService.deploy_project okDockerWorld sampleServiceProject).2.status =
      sampleServiceProject.status ∧
    ((DockerService.deploy_project okDockerWorld sampleProject).1.status = "success" →
      (DockerService.deploy_project okDockerWorld sampleProject).2.status = "running") :=
  ⟨(C9_status_mutation okDockerWorld imageProject).1 rfl,
   (C9_status_mutation okDockerWorld sampleServiceProject).2.2.2.1 rfl,
   ((C9_status_mutation okDockerWorld sampleProject).2.2.2.2.2 rfl).1⟩

/-- When no volume creation fails outright, the volume loop of the
compose deployment returns a created-volume list. -/
theorem createVolumes_ok (w : ComposeService.ComposeWorld) (pid : Nat) (vols : List String)
    (h : ∀ v e, w.volume_create v ≠ ComposeService.CreateOutcome.failure e) :
    ∃ l, ComposeService.createVolumes w pid vols = Except.ok l := by
  induction vols with
  | nil => exact ⟨[], rfl⟩
  | cons v rest ih =>
    obtain ⟨l, hl⟩ := ih
    simp only [ComposeService.createVolumes]
    cases hv : w.volume_create ("auraops-" ++ toString pid ++ "-" ++ v) with
    | created => exact ⟨("auraops-" ++ toString pid ++ "-" ++ v) :: l, by rw [hl]; rfl⟩
    | alreadyExists => exact ⟨l, hl⟩
    | failure e => exact absurd hv (h _ e)

/-- When removing pre-existing containers never raises, the per-service
loop never aborts and appends exactly the successfully started
containers to its accumulator. -/
theorem deployLoop_reports_started (w : ComposeService.ComposeWorld) (pid : Nat)
    (services : List (String × ServiceConfig)) :
    ∀ (order : List String) (acc : List String),
      (∀ name, name ∈ order → w.old_remove name = Except.ok ()) →
      ComposeService.deployLoop w pid services order acc =
        Except.ok (acc ++ ComposeService.successfullyStarted w pid services order)
  | [], acc, _ => by
    simp [ComposeService.deployLoop, ComposeService.successfullyStarted]
  | name :: rest, acc, h => by
    have hname := h name (List.mem_cons_self name rest)
    have hrest : ∀ n, n ∈ rest → w.old_remove n = Except.ok () :=
      fun n hn => h n (List.mem_cons_of_mem name hn)
    have ih := deployLoop_reports_started w pid services rest
    simp only [ComposeService.deployLoop, ComposeService.successfullyStarted,
      List.filterMap_cons]
    cases hf : services.find? (fun kv => kv.1 = name) with
    | none =>
      simp only [hf]
      simpa [ComposeService.successfullyStarted] using ih acc hrest
    | some kv =>
      cases hi : kv.2.image with
      | none =>
        simp only [hf, hi]
        simpa [ComposeService.successfullyStarted] using ih acc hrest
      | some img =>
        cases hr : w.run name with
        | ok cid =>
          simp only [hf, hi, hname, hr]
          rw [ih (acc ++ ["auraops-" ++ toString pid ++ "-" ++ name]) hrest]
          simp [ComposeService.successfullyStarted]
        | error e =>
          simp only [hf, hi, hname, hr]
          simpa [ComposeService.successfullyStarted] using ih acc hrest

/-- C8: amended. Once the manifest parses, the idempotent network and
volume creation succeeds, the dependency order is computed, and no
pre-existing-container removal raises, a `containers.run` failure for
one service does not abort the loop: the stack result is `success`, it
lists exactly the containers that were successfully started, and the
project record is untouched. (An exception while removing a pre-existing
container, by contrast, aborts the whole deployment — see the
counterexample.) -/
theorem C8_compose_run_failure_isolation (w : ComposeService.ComposeWorld) (p : Project)
    (data : ComposeData) (order : List String)
    (hparse : p.compose_file = Except.ok data)
    (hnet : ∀ e, w.network_create ≠ ComposeService.CreateOutcome.failure e)
    (hvol : ∀ v e, w.volume_create v ≠ ComposeService.CreateOutcome.failure e)
    (hsort : ComposeService.topological_sort
      (ComposeService.get_service_dependencies data.services) = Except.ok order)
    (hold : ∀ name, name ∈ order → w.old_remove name = Except.ok ()) :
    (ComposeService.deploy_compose_project w p).1.status = "success" ∧
    (ComposeService.deploy_compose_project w p).1.deployed_services =
      ComposeService.successfullyStarted w p.id data.services order ∧
    (ComposeService.deploy_compose_project w p).2 = p := by
  obtain ⟨l, hl⟩ := createVolumes_ok w p.id data.volumes hvol
  have hloop := deployLoop_reports_started w p.id data.services order [] hold
  have hbody : ComposeService.composeBody w p = Except.ok
      { status := "success"
        deployed_services := ComposeService.successfullyStarted w p.id data.services order
        network := "auraops-" ++ toString p.id ++ "-network"
        volumes := l
        message := "Deployed " ++
          toString (ComposeService.successfullyStarted w p.id data.services order).length ++
          " services successfully" } := by
    cases hn : w.network_create with
    | failure e => exact absurd hn (hnet e)
    | created =>
      simp [ComposeService.composeBody, hparse, hn, hl, hsort, hloop]
    | alreadyExists =>
      simp [ComposeService.composeBody, hparse, hn, hl, hsort, hloop]
  simp [ComposeService.deploy_compose_project, hbody]

/-- C8: counterexample to the claim as stated — while deploying service
`s2` the removal of its pre-existing container raises; the exception
escapes the per-service handling, the loop aborts, and the failed dict
reports no deployed services even though the container of `s1` had been
started successfully. -/
theorem C8_counterexample_old_remove_aborts_loop :
    (ComposeService.deploy_compose_project abortComposeWorld composeProject).1.status =
      "failed" ∧
    (ComposeService.deploy_compose_project abortComposeWorld
      composeProject).1.deployed_services = [] ∧
    abortComposeWorld.run "s1" = Except.ok "cid-s1" :=
  ⟨rfl, rfl, rfl⟩

/-- C8 witness: in the two-service stack where running `s1` fails and
`s2` succeeds, orchestration continues and reports exactly the started
container of `s2`. -/
theorem C8_compose_run_failure_isolation_witness :
    (ComposeService.deploy_compose_project runFailComposeWorld composeProject).1.status =
      "success" ∧
    (ComposeService.deploy_compose_project runFailComposeWorld
      composeProject).1.deployed_services = ["auraops-5-s2"] := by
  have h := C8_compose_run_failure_isolation runFailComposeWorld composeProject
    twoServiceData ["s1", "s2"] rfl
    (fun e hx => ComposeService.CreateOutcome.noConfusion hx)
    (fun v e hx => ComposeService.CreateOutcome.noConfusion hx) rfl
    (fun name hn => rfl)
  exact ⟨h.1, h.2.1.trans rfl⟩

/-- Lookup distributes over cons. -/
theorem envGet_cons (q : String × String) (t : EnvMap) (k : String) :
    envGet (q :: t) k = if q.1 = k then some q.2 else envGet t k := by
  by_cases h : q.1 = k <;> simp [envGet, List.find?, h]

/-- Replacing the binding of a key different from `k` in place does not
change the lookup of `k`. -/
theorem envGet_mapReplace_ne (base : EnvMap) (d : String × String) (k : String)
    (hne : d.1 ≠ k) :
    envGet (base.map (fun p => if p.1 = d.1 then d else p)) k = envGet base k := by
  induction base with
  | nil => rfl
  | cons q t ih =>
    simp only [List.map_cons]
    by_cases hq : q.1 = d.1
    · rw [if_pos hq, envGet_cons, envGet_cons, if_neg hne,
        if_neg (fun hk => hne (hq.symm.trans hk))]
      exact ih
    · rw [if_neg hq, envGet_cons, envGet_cons]
      by_cases hk : q.1 = k
      · rw [if_pos hk, if_pos hk]
      · rw [if_neg hk, if_neg hk]
        exact ih

/-- Appending a binding for a key different from `k` does not change the
lookup of `k`. -/
theorem envGet_append_last_ne (base : EnvMap) (d : String × String) (k : String)
    (hne : d.1 ≠ k) :
    envGet (base ++ [d]) k = envGet base k := by
  induction base with
  | nil =>
    show envGet [d] k = envGet [] k
    rw [envGet_cons, if_neg hne]
  | cons q t ih =>
    rw [List.cons_append, envGet_cons, envGet_cons]
    by_cases hk : q.1 = k
    · rw [if_pos hk, if_pos hk]
    · rw [if_neg hk, if_neg hk]
      exact ih

/-- A key absent from the overrides reads its base value after
`dict.update`. -/
theorem envGet_dictUpdate_of_none (base ov : EnvMap) (k : String)
    (h : envGet ov k = none) :
    envGet (dictUpdate base ov) k = envGet base k := by
  induction ov generalizing base with
  | nil => rfl
  | cons d t ih =>
    rw [envGet_cons] at h
    by_cases hd : d.1 = k
    · rw [if_pos hd] at h
      exact absurd h (by simp)
    · rw [if_neg hd] at h
      have hstep : dictUpdate base (d :: t) = dictUpdate
          (if base.any (fun p => p.1 = d.1) then
            base.map (fun p => if p.1 = d.1 then d else p)
          else base ++ [d]) t := rfl
      rw [hstep, ih _ h]
      by_cases hb : base.any (fun p => p.1 = d.1) = true
      · rw [if_pos hb]
        exact envGet_mapReplace_ne base d k hd
      · rw [if_neg hb]
        exact envGet_append_last_ne base d k hd

/-- C10: on every successful `deploy_service`, `project.env_vars` is
overwritten with the merged environment — the freshly generated
credentials updated by the caller-supplied entries — so afterwards every
generated key that the caller did not override reads its fresh secret,
not anything from the project's previous environment. -/
theorem C10_env_vars_overwritten (w : ServiceDeployer.ServiceWorld) (p : Project)
    (st : String) (res : ServiceDeployer.ServiceResult) (p' : Project)
    (h : ServiceDeployer.deploy_service w p st = Except.ok (res, p'))
    (hs : res.status = "success") :
    ∃ t, ServiceTemplates.get_template st = some t ∧
      p'.env_vars = some (dictUpdate (t.gen_env w.tokens) (p.env_vars.getD [])) ∧
      (∀ k, envGet (p.env_vars.getD []) k = none →
        envGet (dictUpdate (t.gen_env w.tokens) (p.env_vars.getD [])) k =
          envGet (t.gen_env w.tokens) k) := by
  simp only [ServiceDeployer.deploy_service] at h
  split at h
  · simp at h
  · rename_i t hg
    split at h
    · rename_i val hb
      obtain rfl := Except.ok.inj h
      refine ⟨t, hg, ?_, fun k hk => envGet_dictUpdate_of_none _ _ k hk⟩
      have hx : p' = { p with
          env_vars := some (dictUpdate (t.gen_env w.tokens) (p.env_vars.getD [])) } :=
        (deploy_service_body_ok w p t st (res, p') hb).2
      rw [hx]
    · injection (Except.ok.inj h) with h1 h2
      rw [← h1] at hs
      simp at hs

/-- C10 witness: the redis deployment with one caller-supplied
environment entry, applied through the theorem at its computed output. -/
theorem C10_env_vars_overwritten_witness :
    ∃ t, ServiceTemplates.get_template "redis" = some t ∧
      c10out.2.env_vars =
        some (dictUpdate (t.gen_env okServiceWorld.tokens)
          (sampleServiceProject.env_vars.getD [])) ∧
      (∀ k, envGet (sampleServiceProject.env_vars.getD []) k = none →
        envGet (dictUpdate (t.gen_env okServiceWorld.tokens)
          (sampleServiceProject.env_vars.getD [])) k =
          envGet (t.gen_env okServiceWorld.tokens) k) :=
  C10_env_vars_overwritten okServiceWorld sampleServiceProject "redis" c10out.1 c10out.2
    rfl rfl

end AuraOps
